import Mathlib

/-
Verification of homework_bot (src/homework.py) against its specification.

The Python program is shallowly embedded: Python values that can appear in an
API response become the inductive type PyVal, Python exceptions become the
inductive type PyError, fallible functions return Except PyError, and the
effectful parts (the HTTP request, the Telegram send) are parameterised by an
explicit outcome so that every branch of the source, including the except
blocks, is a total Lean function.
-/

set_option autoImplicit false

namespace HomeworkBot

/-- Python values that the program inspects: strings, ints, lists, dicts
(modelled as association lists with first-match lookup, matching dict
semantics for the literals the API produces) and None. -/
inductive PyVal where
  | str (s : String)
  | int (n : Int)
  | list (xs : List PyVal)
  | dict (entries : List (String × PyVal))
  | none
deriving Repr

/-- Python exception classes that the program can raise, each carrying the
message text of the raised instance.  incorrectResponseServer models the
custom IncorrectResponseServerError from exception.py; unboundLocal models
UnboundLocalError; exn models a bare Exception. -/
inductive PyError where
  | typeError (msg : String)
  | keyError (msg : String)
  | indexError (msg : String)
  | unboundLocal (msg : String)
  | incorrectResponseServer (msg : String)
  | exn (msg : String)
deriving DecidableEq, Repr

/-- First-match lookup of a key in a dict, the semantics of d[k] / k in d. -/
def pyLookup (entries : List (String × PyVal)) (key : String) : Option PyVal :=
  match entries with
  | [] => Option.none
  | (k, v) :: rest => if k = key then Option.some v else pyLookup rest key

/-- The membership test k in d for a dict d. -/
def hasKey (entries : List (String × PyVal)) (key : String) : Bool :=
  (pyLookup entries key).isSome

/-- The isinstance(x, dict) test. -/
def PyVal.isDict : PyVal → Bool
  | .dict _ => true
  | _ => false

/-- The isinstance(x, int) test. -/
def PyVal.isInt : PyVal → Bool
  | .int _ => true
  | _ => false

/-- The isinstance(x, list) test. -/
def PyVal.isList : PyVal → Bool
  | .list _ => true
  | _ => false

/-- Rendering of type(x) as Python prints it inside an f-string. -/
def pyTypeName : PyVal → String
  | .str _ => "<class \x27str\x27>"
  | .int _ => "<class \x27int\x27>"
  | .list _ => "<class \x27list\x27>"
  | .dict _ => "<class \x27dict\x27>"
  | .none => "<class \x27NoneType\x27>"

/-- Rendering of a value inside an f-string (str(x)).  Containers are not
interpolated anywhere on a path the program reaches with container values,
so their rendering is abbreviated. -/
def pyStr : PyVal → String
  | .str s => s
  | .int n => toString n
  | .list _ => "[...]"
  | .dict _ => "(dict)"
  | .none => "None"

/-- HOMEWORK_VERDICTS from homework.py: the fixed three-entry verdict table. -/
def HOMEWORK_VERDICTS : List (String × String) :=
  [("approved", "Работа проверена: ревьюеру всё понравилось. Ура!"),
   ("reviewing", "Работа взята на проверку ревьюером."),
   ("rejected", "Работа проверена: у ревьюера есть замечания.")]

/-- Lookup in HOMEWORK_VERDICTS (the expression HOMEWORK_VERDICTS[key]). -/
def verdictLookup (key : String) : Option String :=
  match HOMEWORK_VERDICTS.find? (fun p => p.1 = key) with
  | Option.some p => Option.some p.2
  | Option.none => Option.none

/-- The membership test v in HOMEWORK_VERDICTS.  A dict membership test
hashes the probe value: an unhashable value (list or dict) raises TypeError;
a hashable non-string value is simply not a key. -/
def verdictMember (v : PyVal) : Except PyError Bool :=
  match v with
  | .str s => .ok (HOMEWORK_VERDICTS.any (fun p => p.1 = s))
  | .int _ => .ok false
  | .none => .ok false
  | .list _ => .error (.typeError "unhashable type: list")
  | .dict _ => .error (.typeError "unhashable type: dict")

/-- The membership test key in x for an arbitrary value x, as parse_status
performs it: key lookup for dicts, substring test for strings, element
equality for lists (a string key can only equal a string element), TypeError
for non-container values. -/
def pyContains (x : PyVal) (key : String) : Except PyError Bool :=
  match x with
  | .dict entries => .ok (hasKey entries key)
  | .str s => .ok (((s.splitOn key).length) ≥ 2)
  | .list xs => .ok (xs.any (fun v => match v with | .str s => s = key | _ => false))
  | .int _ => .error (.typeError "argument of type int is not iterable")
  | .none => .error (.typeError "argument of type NoneType is not iterable")

/-- The method call x.get(key): dict lookup defaulting to None; on a
non-dict the attribute lookup itself fails. -/
def pyGet (x : PyVal) (key : String) : Except PyError PyVal :=
  match x with
  | .dict entries =>
      match pyLookup entries key with
      | Option.some v => .ok v
      | Option.none => .ok .none
  | _ => .error (.typeError "object has no attribute get")

/-- Message of the not-a-dict TypeError in check_response. -/
def msgNotDict (v : PyVal) : String :=
  "В ответе API ожидался словарь, получен " ++ pyTypeName v

/-- Message of the missing-homeworks KeyError in check_response. -/
def msgNoHomeworks : String :=
  "В ответе API отсутствует ключ homeworks"

/-- Message of the missing-current_date KeyError in check_response. -/
def msgNoCurrentDate : String :=
  "В ответе API отсутствует ключ current_date"

/-- Message of the current_date-not-an-int TypeError in check_response. -/
def msgCurrentDateNotInt (v : PyVal) : String :=
  "В ответе API по ключу \x22current_date\x22 должно быть целое число, сейчас там "
    ++ pyTypeName v

/-- Message of the TypeError actually raised in the homeworks-not-a-list
branch: the source interpolates response("homeworks") into its f-string,
which calls the dict, so building the message itself raises. -/
def msgDictNotCallable : String :=
  "dict object is not callable"

/-- check_response from homework.py.  Checks, in source order: the response
is a dict; it has key homeworks; it has key current_date; the current_date
value is an int; the homeworks value is a list.  On success it returns the
homeworks list unchanged. -/
def check_response (response : PyVal) : Except PyError (List PyVal) :=
  match response with
  | .dict entries =>
    match pyLookup entries "homeworks", pyLookup entries "current_date" with
    | Option.none, _ => .error (.keyError msgNoHomeworks)
    | Option.some _, Option.none => .error (.keyError msgNoCurrentDate)
    | Option.some hw, Option.some cd =>
      if ¬ cd.isInt then
        .error (.typeError (msgCurrentDateNotInt cd))
      else
        match hw with
        | .list xs => .ok xs
        | _ => .error (.typeError msgDictNotCallable)
  | other => .error (.typeError (msgNotDict other))

/-- Message of the missing-homework_name KeyError in parse_status. -/
def msgNoHomeworkName : String :=
  "В ответе API не найден ключ homework_name"

/-- Message of the missing-status KeyError in parse_status. -/
def msgNoStatus : String :=
  "В ответе API не найден ключ status"

/-- Message of the unknown-status Exception in parse_status. -/
def msgUnknownStatus (statusVal : PyVal) : String :=
  pyStr statusVal ++ " - такой статус отсутствует в списке"

/-- The formatted sentence parse_status returns on success. -/
def statusSentence (nameVal : PyVal) (verdict : String) : String :=
  "Изменился статус проверки работы \x22" ++ pyStr nameVal ++ "\x22. " ++ verdict

/-- parse_status from homework.py: requires keys homework_name and status,
requires the status value to be a key of HOMEWORK_VERDICTS, and returns the
formatted sentence embedding the homework name and the verdict.  The final
two fallback branches model the dict indexing HOMEWORK_VERDICTS[...] and are
unreachable once the membership test has passed. -/
def parse_status (homework : PyVal) : Except PyError String :=
  match pyContains homework "homework_name" with
  | .error e => .error e
  | .ok hasName =>
    if ¬ hasName then .error (.keyError msgNoHomeworkName)
    else
      match pyContains homework "status" with
      | .error e => .error e
      | .ok hasStatus =>
        if ¬ hasStatus then .error (.keyError msgNoStatus)
        else
          match pyGet homework "status" with
          | .error e => .error e
          | .ok statusVal =>
            match verdictMember statusVal with
            | .error e => .error e
            | .ok known =>
              if ¬ known then .error (.exn (msgUnknownStatus statusVal))
              else
                match pyGet homework "homework_name" with
                | .error e => .error e
                | .ok nameVal =>
                  match statusVal with
                  | .str s =>
                    match verdictLookup s with
                    | Option.some verdict => .ok (statusSentence nameVal verdict)
                    | Option.none => .error (.keyError s)
                  | _ => .error (.keyError (pyStr statusVal))

/-- Outcome of the requests.get call in get_api_answer: either the call
itself raised (connection error and the like), or it produced a response
with a status code whose .json() parses to the given value. -/
inductive HttpOutcome where
  | transportExn (errText : String)
  | resp (status_code : Nat) (body : PyVal)
deriving Repr

/-- Message of the UnboundLocalError raised in the transport-failure branch
of get_api_answer. -/
def msgUnboundResponse : String :=
  "local variable response referenced before assignment"

/-- Message of the IncorrectResponseServerError raised on a non-200 status
(the header and endpoint interpolations are abbreviated to their names). -/
def msgBadStatus (status_code : Nat) (current_timestamp : Int) : String :=
  "Ответ от сервера некорректный, код: " ++ toString status_code
    ++ ", данные авторизации HEADERS адрес api ENDPOINT, метка даты в Unix "
    ++ toString current_timestamp

/-- get_api_answer from homework.py.  On a transport exception the except
block builds its diagnostic f-string from response.status_code, but response
was never assigned, so an UnboundLocalError is raised instead of the
intended IncorrectResponseServerError.  On a non-200 status it raises
IncorrectResponseServerError carrying the status code and the request
parameters.  On status 200 it returns the parsed body. -/
def get_api_answer (current_timestamp : Int) (http : HttpOutcome) :
    Except PyError PyVal :=
  match http with
  | .transportExn _ =>
      .error (.unboundLocal msgUnboundResponse)
  | .resp status_code body =>
      if status_code ≠ 200 then
        .error (.incorrectResponseServer (msgBadStatus status_code current_timestamp))
      else .ok body

/-- Outcome of the underlying bot.send_message call inside send_message. -/
inductive BotSend where
  | succeeds
  | raises (errText : String)
deriving Repr

/-- Log levels used by the program. -/
inductive LogLevel where
  | debug
  | info
  | error
  | critical
deriving DecidableEq, Repr

/-- One structured log line (level and message). -/
structure LogRecord where
  level : LogLevel
  text : String
deriving DecidableEq, Repr

/-- The bot client call bot.send_message(TELEGRAM_CHAT_ID, message): it
either succeeds or raises, per the BotSend outcome. -/
def botApiSend (bot : BotSend) (message : String) : Except String Unit :=
  match bot with
  | .succeeds => .ok ()
  | .raises e => .error (e ++ " " ++ message)

/-- send_message from homework.py: performs the bot call inside try/except;
a failure is logged at error level, a success at info level, and in both
cases the function returns None to its caller.  The first component is the
Python return value, the second the log line emitted. -/
def send_message (bot : BotSend) (message : String) : Unit × LogRecord :=
  match botApiSend bot message with
  | .error _ =>
      ((), ⟨.error, "Ошибка отправки сообщения функции send_message"⟩)
  | .ok _ =>
      ((), ⟨.info,
        "Пользователю с ID - TELEGRAM_CHAT_ID, от бота отправлена следующая информация: "
          ++ message⟩)

/-- The indexing expression homeworks[0]: IndexError on an empty list. -/
def pyIndexZero (xs : List PyVal) : Except PyError PyVal :=
  match xs with
  | [] => .error (.indexError "list index out of range")
  | x :: _ => .ok x

/-- Rendering of the exception inside the f-string of the loop handler
(str(error)).  str of a KeyError is the repr of its argument, so it carries
quotes; the other classes render their message directly. -/
def pyErrorText : PyError → String
  | .keyError m => "\x27" ++ m ++ "\x27"
  | .typeError m => m
  | .indexError m => m
  | .unboundLocal m => m
  | .incorrectResponseServer m => m
  | .exn m => m

/-- The mutable locals of the polling loop in main. -/
structure LoopState where
  current_timestamp : Int
  status_message_old : String
  message_error_old : String
deriving DecidableEq, Repr

/-- The diagnostic text built by the loop handler from an exception
(f-string Сбой в работе программы with str(error) interpolated). -/
def diagText (e : PyError) : String :=
  "Сбой в работе программы: " ++ pyErrorText e

/-- What the loop handed to the Notifier in one cycle, if anything. -/
inductive Sent where
  | status (text : String)
  | failure (text : String)
deriving DecidableEq, Repr

/-- The try-block body of one polling cycle in main: fetch, validate, index
the first record, format its status.  The empty-homeworks case is only
logged by the source; control still reaches homeworks[0]. -/
def cycleBody (current_timestamp : Int) (http : HttpOutcome) :
    Except PyError String :=
  match get_api_answer current_timestamp http with
  | .error e => .error e
  | .ok response =>
    match check_response response with
    | .error e => .error e
    | .ok homeworks =>
      match pyIndexZero homeworks with
      | .error e => .error e
      | .ok first => parse_status first

/-- One full iteration of the while-True loop in main (the sleep elided):
on a formatted status differing from status_message_old, send it and record
it; on any exception, build the diagnostic message and, if it differs from
message_error_old, send it and record it.  Returns the updated locals, what
was sent, and the log line of the send if one happened.  Note the source
never assigns current_timestamp inside the loop. -/
def loopStep (s : LoopState) (http : HttpOutcome) (bot : BotSend) :
    LoopState × Option Sent × List LogRecord :=
  match cycleBody s.current_timestamp http with
  | .ok status_message =>
      if s.status_message_old ≠ status_message then
        ({ s with status_message_old := status_message },
          Option.some (.status status_message),
          [(send_message bot status_message).2])
      else (s, Option.none, [])
  | .error e =>
      let message := diagText e
      if s.message_error_old ≠ message then
        ({ s with message_error_old := message },
          Option.some (.failure message),
          [(send_message bot message).2])
      else (s, Option.none, [])

/-- The three environment values read at startup.  check_tokens treats a
missing value and an empty string alike (if not globals().get(token)). -/
structure Env where
  practicum_token : Option String
  telegram_token : Option String
  telegram_chat_id : Option String
deriving Repr

/-- Truthiness of one configured value. -/
def tokenPresent : Option String → Bool
  | Option.some s => ¬ s.isEmpty
  | Option.none => false

/-- check_tokens from homework.py: scans the three token names in order,
logging a critical line for each absent one, and returns whether all are
present. -/
def check_tokens (env : Env) : Bool × List LogRecord :=
  let entries : List (String × Option String) :=
    [("PRACTICUM_TOKEN", env.practicum_token),
     ("TELEGRAM_TOKEN", env.telegram_token),
     ("TELEGRAM_CHAT_ID", env.telegram_chat_id)]
  entries.foldl
    (fun acc p =>
      if tokenPresent p.2 then acc
      else (false, acc.2 ++ [⟨LogLevel.critical, "Отсутствует токен: " ++ p.1⟩]))
    (true, [])

/-- The startup text raised with SystemExit when credentials are missing. -/
def startupErrorMessage : String :=
  "Необходимые для работы переменные окружения отсутствуют, смотрите homework.py.log. Работа программы будет остановлена"

/-- The startup phase of main, up to entering the polling loop: if
check_tokens fails, log the critical message and raise SystemExit; else
initialize current_timestamp to 0 and both last-sent strings to empty.  The
error side carries the SystemExit message and the critical log lines; the ok
side is the initial loop state. -/
def mainStartup (env : Env) : List LogRecord × Except String LoopState :=
  let checked := check_tokens env
  if ¬ checked.1 then
    (checked.2 ++ [⟨LogLevel.critical, startupErrorMessage⟩],
      .error startupErrorMessage)
  else
    (checked.2, .ok ⟨0, "", ""⟩)

/-- A response whose homeworks list holds one record, hw1 with status
approved, and whose current_date is 1000: the scenario of the spec. -/
def responseHw1 : PyVal :=
  .dict [("homeworks",
           .list [.dict [("homework_name", .str "hw1"), ("status", .str "approved")]]),
         ("current_date", .int 1000)]

/-- The sentence the Formatter produces for the hw1 approved record. -/
def statusHw1 : String :=
  "Изменился статус проверки работы \x22hw1\x22. Работа проверена: ревьюеру всё понравилось. Ура!"

/-- A response whose homeworks list is empty and whose current_date is
2000: the empty scenario of the spec. -/
def emptyResponse2000 : PyVal :=
  .dict [("homeworks", .list []), ("current_date", .int 2000)]

/-- Whether a parse_status result is the unknown-status failure (the bare
Exception raise of the source). -/
def isUnknownStatusResult (r : Except PyError String) : Bool :=
  match r with
  | .error (.exn _) => true
  | _ => false

section LoopLemmas

/-- Shape of loopStep when the body yields a fresh status text. -/
theorem loopStep_ok_new (s : LoopState) (http : HttpOutcome) (bot : BotSend) (m : String)
    (hbody : cycleBody s.current_timestamp http = .ok m)
    (hne : s.status_message_old ≠ m) :
    loopStep s http bot =
      ({ s with status_message_old := m }, Option.some (.status m),
        [(send_message bot m).2]) := by
  unfold loopStep
  rw [hbody]
  simp [hne]

/-- Shape of loopStep when the body repeats the last-sent status text. -/
theorem loopStep_ok_same (s : LoopState) (http : HttpOutcome) (bot : BotSend) (m : String)
    (hbody : cycleBody s.current_timestamp http = .ok m)
    (heq : s.status_message_old = m) :
    loopStep s http bot = (s, Option.none, []) := by
  unfold loopStep
  rw [hbody]
  simp [heq]

/-- Shape of loopStep when the body raises and the diagnostic is fresh. -/
theorem loopStep_err_new (s : LoopState) (http : HttpOutcome) (bot : BotSend) (e : PyError)
    (hbody : cycleBody s.current_timestamp http = .error e)
    (hne : s.message_error_old ≠ diagText e) :
    loopStep s http bot =
      ({ s with message_error_old := diagText e }, Option.some (.failure (diagText e)),
        [(send_message bot (diagText e)).2]) := by
  unfold loopStep
  rw [hbody]
  simp [hne]

/-- Shape of loopStep when the body raises and the diagnostic repeats the
last-sent error text. -/
theorem loopStep_err_same (s : LoopState) (http : HttpOutcome) (bot : BotSend) (e : PyError)
    (hbody : cycleBody s.current_timestamp http = .error e)
    (heq : s.message_error_old = diagText e) :
    loopStep s http bot = (s, Option.none, []) := by
  unfold loopStep
  rw [hbody]
  simp [heq]

/-- loopStep never writes current_timestamp: the source has no assignment
to it inside the loop. -/
theorem loopStep_timestamp (s : LoopState) (http : HttpOutcome) (bot : BotSend) :
    (loopStep s http bot).1.current_timestamp = s.current_timestamp := by
  unfold loopStep
  rcases hcb : cycleBody s.current_timestamp http with e | m
  · by_cases hne : s.message_error_old = diagText e <;> simp [hne]
  · by_cases hne : s.status_message_old = m <;> simp [hne]

/-- If a cycle sent a status text, status_message_old now holds it. -/
theorem sent_status_updates (s : LoopState) (http : HttpOutcome) (bot : BotSend) (m : String)
    (h : (loopStep s http bot).2.1 = Option.some (.status m)) :
    (loopStep s http bot).1.status_message_old = m := by
  rcases hcb : cycleBody s.current_timestamp http with e | m'
  · by_cases heq : s.message_error_old = diagText e
    · rw [loopStep_err_same s http bot e hcb heq] at h
      simp at h
    · rw [loopStep_err_new s http bot e hcb heq] at h
      simp at h
  · by_cases heq : s.status_message_old = m'
    · rw [loopStep_ok_same s http bot m' hcb heq] at h
      simp at h
    · rw [loopStep_ok_new s http bot m' hcb heq] at h ⊢
      simp at h ⊢
      exact h

/-- If a cycle sent an error diagnostic, message_error_old now holds it. -/
theorem sent_failure_updates (s : LoopState) (http : HttpOutcome) (bot : BotSend) (m : String)
    (h : (loopStep s http bot).2.1 = Option.some (.failure m)) :
    (loopStep s http bot).1.message_error_old = m := by
  rcases hcb : cycleBody s.current_timestamp http with e | m'
  · by_cases heq : s.message_error_old = diagText e
    · rw [loopStep_err_same s http bot e hcb heq] at h
      simp at h
    · rw [loopStep_err_new s http bot e hcb heq] at h ⊢
      simp at h ⊢
      exact h
  · by_cases heq : s.status_message_old = m'
    · rw [loopStep_ok_same s http bot m' hcb heq] at h
      simp at h
    · rw [loopStep_ok_new s http bot m' hcb heq] at h
      simp at h

/-- A cycle whose formatted status equals status_message_old sends nothing. -/
theorem step_same_status_suppressed (s : LoopState) (http : HttpOutcome) (bot : BotSend)
    (m : String) (hold : s.status_message_old = m)
    (hbody : cycleBody s.current_timestamp http = .ok m) :
    (loopStep s http bot).2.1 = Option.none := by
  rw [loopStep_ok_same s http bot m hbody hold]

/-- A cycle whose error diagnostic equals message_error_old sends nothing. -/
theorem step_same_failure_suppressed (s : LoopState) (http : HttpOutcome) (bot : BotSend)
    (e : PyError) (hold : s.message_error_old = diagText e)
    (hbody : cycleBody s.current_timestamp http = .error e) :
    (loopStep s http bot).2.1 = Option.none := by
  rw [loopStep_err_same s http bot e hbody hold]

/-- The next loop state and the notified content do not depend on the
outcome of the bot send (only the emitted log line does). -/
theorem loopStep_bot_independent (s : LoopState) (http : HttpOutcome) (b bAlt : BotSend) :
    (loopStep s http b).1 = (loopStep s http bAlt).1 ∧
    (loopStep s http b).2.1 = (loopStep s http bAlt).2.1 := by
  rcases hcb : cycleBody s.current_timestamp http with e | m
  · by_cases heq : s.message_error_old = diagText e
    · rw [loopStep_err_same s http b e hcb heq, loopStep_err_same s http bAlt e hcb heq]
      exact ⟨rfl, rfl⟩
    · rw [loopStep_err_new s http b e hcb heq, loopStep_err_new s http bAlt e hcb heq]
      exact ⟨rfl, rfl⟩
  · by_cases heq : s.status_message_old = m
    · rw [loopStep_ok_same s http b m hcb heq, loopStep_ok_same s http bAlt m hcb heq]
      exact ⟨rfl, rfl⟩
    · rw [loopStep_ok_new s http b m hcb heq, loopStep_ok_new s http bAlt m hcb heq]
      exact ⟨rfl, rfl⟩

end LoopLemmas

/-- C1: the claim says the poll cursor is updated to the current_date of
the response after a successful cycle.  The loop in the source never
assigns current_timestamp: this theorem shows the cursor is unchanged by
every cycle, and in particular stays 0 after the successful hw1 cycle whose
response carried current_date 1000. -/
theorem cursor_never_advances :
    (∀ (s : LoopState) (http : HttpOutcome) (bot : BotSend),
      (loopStep s http bot).1.current_timestamp = s.current_timestamp) ∧
    (loopStep ⟨0, "", ""⟩ (.resp 200 responseHw1) .succeeds).1.current_timestamp = 0 := by
  refine ⟨fun s http bot => loopStep_timestamp s http bot, rfl⟩

/-- C2: the claim says an empty homeworks list completes the cycle without
raising, with no Notifier call, and with the cursor advanced to 2000.  In
the source control still reaches homeworks[0], which raises IndexError; the
loop handler then invokes the Notifier with a diagnostic, and the cursor
stays 0. -/
theorem empty_homeworks_raises :
    cycleBody 0 (.resp 200 emptyResponse2000) =
      .error (.indexError "list index out of range") ∧
    (loopStep ⟨0, "", ""⟩ (.resp 200 emptyResponse2000) .succeeds).2.1 =
      Option.some (.failure (diagText (.indexError "list index out of range"))) ∧
    (loopStep ⟨0, "", ""⟩ (.resp 200 emptyResponse2000) .succeeds).1.current_timestamp = 0 := by
  refine ⟨rfl, rfl, rfl⟩

/-- C4: the claim says both failure modes of get_api_answer raise a
RemoteServiceError carrying the status code and request parameters.  The
non-200 branch does; but in the transport-exception branch the except block
reads the never-assigned response variable while formatting its message, so
an UnboundLocalError is raised instead.  On status 200 the parsed body is
returned. -/
theorem get_api_answer_failure_modes :
    get_api_answer 0 (.transportExn "ConnectionError") =
      .error (.unboundLocal msgUnboundResponse) ∧
    get_api_answer 5 (.resp 503 .none) =
      .error (.incorrectResponseServer (msgBadStatus 503 5)) ∧
    get_api_answer 5 (.resp 200 (.int 7)) = .ok (.int 7) := by
  refine ⟨rfl, rfl, rfl⟩

/-- C7: for the record with homework_name hw1 and status approved,
parse_status returns exactly the formatted sentence embedding the name and
the approved verdict. -/
theorem parse_status_hw1_approved :
    parse_status (.dict [("homework_name", .str "hw1"), ("status", .str "approved")]) =
      .ok statusHw1 := by
  rfl

/-- C3: a given status text or error diagnostic is sent at most once
consecutively.  Whenever a text is sent, the corresponding last-sent field
is updated to it; and if a first cycle sends a fresh status (or error
diagnostic) and the following cycle produces the identical text, the first
cycle sends it and the second sends nothing, so the Notifier is invoked
exactly once for it. -/
theorem notifier_deduplicates (s : LoopState) (h1 h2 : HttpOutcome) (b1 b2 : BotSend)
    (m : String) (e1 e2 : PyError) :
    ((loopStep s h1 b1).2.1 = Option.some (.status m) →
      (loopStep s h1 b1).1.status_message_old = m) ∧
    ((loopStep s h1 b1).2.1 = Option.some (.failure m) →
      (loopStep s h1 b1).1.message_error_old = m) ∧
    (s.status_message_old ≠ m →
      cycleBody s.current_timestamp h1 = .ok m →
      cycleBody (loopStep s h1 b1).1.current_timestamp h2 = .ok m →
      (loopStep s h1 b1).2.1 = Option.some (.status m) ∧
      (loopStep (loopStep s h1 b1).1 h2 b2).2.1 = Option.none) ∧
    (s.message_error_old ≠ diagText e1 →
      cycleBody s.current_timestamp h1 = .error e1 →
      cycleBody (loopStep s h1 b1).1.current_timestamp h2 = .error e2 →
      diagText e1 = diagText e2 →
      (loopStep s h1 b1).2.1 = Option.some (.failure (diagText e1)) ∧
      (loopStep (loopStep s h1 b1).1 h2 b2).2.1 = Option.none) := by
  refine ⟨sent_status_updates s h1 b1 m, sent_failure_updates s h1 b1 m, ?_, ?_⟩
  · intro hne hcb1 hcb2
    have hstep1 := loopStep_ok_new s h1 b1 m hcb1 hne
    rw [hstep1] at hcb2 ⊢
    refine ⟨rfl, ?_⟩
    exact step_same_status_suppressed _ h2 b2 m rfl hcb2
  · intro hne hcb1 hcb2 htext
    have hstep1 := loopStep_err_new s h1 b1 e1 hcb1 hne
    rw [hstep1] at hcb2 ⊢
    refine ⟨rfl, ?_⟩
    exact step_same_failure_suppressed _ h2 b2 e2 (by simp [htext]) hcb2

/-- Witness for C3: starting from the initial state, two cycles with the
same hw1 response send the status once and then suppress it. -/
theorem notifier_deduplicates_witness :
    (loopStep ⟨0, "", ""⟩ (.resp 200 responseHw1) .succeeds).2.1 =
      Option.some (.status statusHw1) ∧
    (loopStep (loopStep ⟨0, "", ""⟩ (.resp 200 responseHw1) .succeeds).1
        (.resp 200 responseHw1) .succeeds).2.1 = Option.none := by
  exact (notifier_deduplicates ⟨0, "", ""⟩ (.resp 200 responseHw1) (.resp 200 responseHw1)
      .succeeds .succeeds statusHw1 (.exn "x") (.exn "x")).2.2.1
    (by decide) rfl rfl

/-- C9: send_message returns normally whatever the bot call does, its
return value is the same on success and on failure, the loop state and the
notified content do not depend on the delivery outcome, and a status whose
delivery failed is not retried while the deduplication text is unchanged:
the following cycle producing the same text sends nothing. -/
theorem send_message_never_raises (b bAlt : BotSend) (msg : String) (s : LoopState)
    (h1 h2 : HttpOutcome) (e : String) (m : String) :
    (send_message b msg).1 = (send_message bAlt msg).1 ∧
    (loopStep s h1 b).1 = (loopStep s h1 bAlt).1 ∧
    (loopStep s h1 b).2.1 = (loopStep s h1 bAlt).2.1 ∧
    ((loopStep s h1 (.raises e)).2.1 = Option.some (.status m) →
      cycleBody (loopStep s h1 (.raises e)).1.current_timestamp h2 = .ok m →
      (loopStep (loopStep s h1 (.raises e)).1 h2 bAlt).2.1 = Option.none) := by
  refine ⟨rfl, (loopStep_bot_independent s h1 b bAlt).1,
    (loopStep_bot_independent s h1 b bAlt).2, ?_⟩
  intro hsent hcb2
  exact step_same_status_suppressed _ h2 bAlt m
    (sent_status_updates s h1 (.raises e) m hsent) hcb2

/-- Witness for C9: a cycle whose send raised still records the status, and
the next cycle with the identical status sends nothing. -/
theorem send_message_never_raises_witness :
    (loopStep (loopStep ⟨0, "", ""⟩ (.resp 200 responseHw1) (.raises "boom")).1
        (.resp 200 responseHw1) .succeeds).2.1 = Option.none := by
  exact (send_message_never_raises (.raises "boom") .succeeds "hi" ⟨0, "", ""⟩
      (.resp 200 responseHw1) (.resp 200 responseHw1) "boom" statusHw1).2.2.2 rfl rfl

/-- C5: check_response performs its five shape checks in source order, each
failing with its own error: not-a-dict is a type error raised regardless of
anything else; a missing homeworks key is a key error raised before the
current_date key is examined; a missing current_date key is a key error; a
non-integer current_date is a type error raised before the homeworks value
is typed; a non-list homeworks value is a type error; and when every check
passes the homeworks list is returned unchanged. -/
theorem check_response_ordered_checks (v : PyVal) (entries : List (String × PyVal))
    (hw cd : PyVal) (n : Int) (xs : List PyVal) :
    (v.isDict = false →
      check_response v = .error (.typeError (msgNotDict v))) ∧
    (pyLookup entries "homeworks" = Option.none →
      check_response (.dict entries) = .error (.keyError msgNoHomeworks)) ∧
    (pyLookup entries "homeworks" = Option.some hw →
      pyLookup entries "current_date" = Option.none →
      check_response (.dict entries) = .error (.keyError msgNoCurrentDate)) ∧
    (pyLookup entries "homeworks" = Option.some hw →
      pyLookup entries "current_date" = Option.some cd →
      cd.isInt = false →
      check_response (.dict entries) = .error (.typeError (msgCurrentDateNotInt cd))) ∧
    (pyLookup entries "homeworks" = Option.some hw →
      pyLookup entries "current_date" = Option.some (.int n) →
      hw.isList = false →
      check_response (.dict entries) = .error (.typeError msgDictNotCallable)) ∧
    (pyLookup entries "homeworks" = Option.some (.list xs) →
      pyLookup entries "current_date" = Option.some (.int n) →
      check_response (.dict entries) = .ok xs) := by
  refine ⟨?_, ?_, ?_, ?_, ?_, ?_⟩
  · intro h
    cases v with
    | str s => rfl
    | int k => rfl
    | list l => rfl
    | dict es => simp [PyVal.isDict] at h
    | none => rfl
  · intro h
    simp [check_response, h]
  · intro h1 h2
    simp [check_response, h1, h2]
  · intro h1 h2 h3
    simp [check_response, h1, h2, h3]
  · intro h1 h2 h3
    cases hw with
    | str s => simp [check_response, h1, h2, PyVal.isInt]
    | int k => simp [check_response, h1, h2, PyVal.isInt]
    | list l => simp [PyVal.isList] at h3
    | dict es => simp [check_response, h1, h2, PyVal.isInt]
    | none => simp [check_response, h1, h2, PyVal.isInt]
  · intro h1 h2
    simp [check_response, h1, h2, PyVal.isInt]

/-- Witness for C5 at concrete responses, one per branch. -/
theorem check_response_ordered_checks_witness :
    check_response (.int 3) = .error (.typeError (msgNotDict (.int 3))) ∧
    check_response (.dict [("current_date", .int 5)]) = .error (.keyError msgNoHomeworks) ∧
    check_response (.dict [("homeworks", .list [])]) = .error (.keyError msgNoCurrentDate) ∧
    check_response (.dict [("homeworks", .list []), ("current_date", .str "x")]) =
      .error (.typeError (msgCurrentDateNotInt (.str "x"))) ∧
    check_response (.dict [("homeworks", .int 9), ("current_date", .int 5)]) =
      .error (.typeError msgDictNotCallable) ∧
    check_response (.dict [("homeworks", .list [.int 1]), ("current_date", .int 5)]) =
      .ok [.int 1] := by
  refine ⟨?_, ?_, ?_, ?_, ?_, ?_⟩
  · exact (check_response_ordered_checks (.int 3) [] .none .none 0 []).1 rfl
  · exact (check_response_ordered_checks .none [("current_date", .int 5)]
      .none .none 0 []).2.1 rfl
  · exact (check_response_ordered_checks .none [("homeworks", .list [])]
      (.list []) .none 0 []).2.2.1 rfl rfl
  · exact (check_response_ordered_checks .none
      [("homeworks", .list []), ("current_date", .str "x")]
      (.list []) (.str "x") 0 []).2.2.2.1 rfl rfl rfl
  · exact (check_response_ordered_checks .none
      [("homeworks", .int 9), ("current_date", .int 5)]
      (.int 9) .none 5 []).2.2.2.2.1 rfl rfl rfl
  · exact (check_response_ordered_checks .none
      [("homeworks", .list [.int 1]), ("current_date", .int 5)]
      .none .none 5 [.int 1]).2.2.2.2.2 rfl rfl

/-- Counterexample for C6: the record with both keys whose status value is
the (unhashable) empty list has a status outside the verdict set, yet
parse_status raises a TypeError from the dict membership test, not the
unknown-status error. -/
theorem parse_status_unhashable_counterexample :
    parse_status (.dict [("homework_name", .str "hw"), ("status", .list [])]) =
      .error (.typeError "unhashable type: list") ∧
    isUnknownStatusResult
      (parse_status (.dict [("homework_name", .str "hw"), ("status", .list [])])) = false := by
  exact ⟨rfl, rfl⟩

/-- C6 (amended): for a record with both keys, a missing homework_name or
status key fails with the corresponding key error; a hashable status value
(string, int or None) outside the verdict set fails with the unknown-status
error; an unhashable status value (list or dict) makes the membership test
itself raise a type error. -/
theorem parse_status_error_modes (entries : List (String × PyVal)) (nameVal : PyVal)
    (st : String) (n : Int) (xs : List PyVal) (ds : List (String × PyVal)) :
    (pyLookup entries "homework_name" = Option.none →
      parse_status (.dict entries) = .error (.keyError msgNoHomeworkName)) ∧
    (pyLookup entries "homework_name" = Option.some nameVal →
      pyLookup entries "status" = Option.none →
      parse_status (.dict entries) = .error (.keyError msgNoStatus)) ∧
    (pyLookup entries "homework_name" = Option.some nameVal →
      pyLookup entries "status" = Option.some (.str st) →
      verdictMember (.str st) = .ok false →
      parse_status (.dict entries) = .error (.exn (msgUnknownStatus (.str st)))) ∧
    (pyLookup entries "homework_name" = Option.some nameVal →
      pyLookup entries "status" = Option.some (.int n) →
      parse_status (.dict entries) = .error (.exn (msgUnknownStatus (.int n)))) ∧
    (pyLookup entries "homework_name" = Option.some nameVal →
      pyLookup entries "status" = Option.some .none →
      parse_status (.dict entries) = .error (.exn (msgUnknownStatus .none))) ∧
    (pyLookup entries "homework_name" = Option.some nameVal →
      pyLookup entries "status" = Option.some (.list xs) →
      parse_status (.dict entries) = .error (.typeError "unhashable type: list")) ∧
    (pyLookup entries "homework_name" = Option.some nameVal →
      pyLookup entries "status" = Option.some (.dict ds) →
      parse_status (.dict entries) = .error (.typeError "unhashable type: dict")) := by
  refine ⟨?_, ?_, ?_, ?_, ?_, ?_, ?_⟩
  · intro h
    simp [parse_status, pyContains, hasKey, h]
  · intro h1 h2
    simp [parse_status, pyContains, hasKey, h1, h2]
  · intro h1 h2 h3
    simp [parse_status, pyContains, hasKey, pyGet, h1, h2, h3]
  · intro h1 h2
    simp [parse_status, pyContains, hasKey, pyGet, verdictMember, h1, h2]
  · intro h1 h2
    simp [parse_status, pyContains, hasKey, pyGet, verdictMember, h1, h2]
  · intro h1 h2
    simp [parse_status, pyContains, hasKey, pyGet, verdictMember, h1, h2]
  · intro h1 h2
    simp [parse_status, pyContains, hasKey, pyGet, verdictMember, h1, h2]

/-- Witness for C6 (amended) at concrete records, one per branch. -/
theorem parse_status_error_modes_witness :
    parse_status (.dict [("status", .str "approved")]) =
      .error (.keyError msgNoHomeworkName) ∧
    parse_status (.dict [("homework_name", .str "h")]) =
      .error (.keyError msgNoStatus) ∧
    parse_status (.dict [("homework_name", .str "h"), ("status", .str "weird")]) =
      .error (.exn (msgUnknownStatus (.str "weird"))) ∧
    parse_status (.dict [("homework_name", .str "h"), ("status", .int 3)]) =
      .error (.exn (msgUnknownStatus (.int 3))) ∧
    parse_status (.dict [("homework_name", .str "h"), ("status", .dict [])]) =
      .error (.typeError "unhashable type: dict") := by
  refine ⟨?_, ?_, ?_, ?_, ?_⟩
  · exact (parse_status_error_modes [("status", .str "approved")]
      .none "" 0 [] []).1 rfl
  · exact (parse_status_error_modes [("homework_name", .str "h")]
      (.str "h") "" 0 [] []).2.1 rfl rfl
  · exact (parse_status_error_modes [("homework_name", .str "h"), ("status", .str "weird")]
      (.str "h") "weird" 0 [] []).2.2.1 rfl rfl rfl
  · exact (parse_status_error_modes [("homework_name", .str "h"), ("status", .int 3)]
      (.str "h") "" 3 [] []).2.2.2.1 rfl rfl
  · exact (parse_status_error_modes [("homework_name", .str "h"), ("status", .dict [])]
      (.str "h") "" 0 [] []).2.2.2.2.2.2 rfl rfl

/-- C8: when one of the three credentials is absent, startup ends with the
SystemExit message after logging a critical line, and the polling loop is
never entered; when all three are present, startup succeeds with the cursor
initialized to 0 and both last-sent strings empty. -/
theorem startup_requires_credentials (env : Env) :
    ((tokenPresent env.practicum_token = false ∨
        tokenPresent env.telegram_token = false ∨
        tokenPresent env.telegram_chat_id = false) →
      (mainStartup env).2 = .error startupErrorMessage ∧
      LogRecord.mk LogLevel.critical startupErrorMessage ∈ (mainStartup env).1) ∧
    (tokenPresent env.practicum_token = true →
      tokenPresent env.telegram_token = true →
      tokenPresent env.telegram_chat_id = true →
      mainStartup env = ([], .ok ⟨0, "", ""⟩)) := by
  rcases hp : tokenPresent env.practicum_token <;>
    rcases ht : tokenPresent env.telegram_token <;>
      rcases hc : tokenPresent env.telegram_chat_id <;>
        simp [mainStartup, check_tokens, hp, ht, hc]

/-- Witness for C8: a missing API token aborts startup; a full credential
set enters polling from the initial state. -/
theorem startup_requires_credentials_witness :
    (mainStartup ⟨Option.none, Option.some "t", Option.some "c"⟩).2 =
      .error startupErrorMessage ∧
    mainStartup ⟨Option.some "p", Option.some "t", Option.some "c"⟩ =
      ([], .ok ⟨0, "", ""⟩) := by
  refine ⟨((startup_requires_credentials ⟨Option.none, Option.some "t", Option.some "c"⟩).1
      (Or.inl rfl)).1,
    (startup_requires_credentials ⟨Option.some "p", Option.some "t", Option.some "c"⟩).2
      rfl rfl rfl⟩

/-- C10: check_response accepts any response whose homeworks value is a
list and whose current_date value is an int, returning the list unchanged
whatever the shape of its elements; and a polling cycle examines only the
first element of the list, so its outcome is unchanged when the tail is
replaced. -/
theorem check_response_shape_only (entries : List (String × PyVal)) (xs : List PyVal)
    (n : Int) (x : PyVal) (rest1 rest2 : List PyVal) (ts : Int) :
    (pyLookup entries "homeworks" = Option.some (.list xs) →
      pyLookup entries "current_date" = Option.some (.int n) →
      check_response (.dict entries) = .ok xs) ∧
    cycleBody ts (.resp 200
        (.dict [("homeworks", .list (x :: rest1)), ("current_date", .int n)])) =
      cycleBody ts (.resp 200
        (.dict [("homeworks", .list (x :: rest2)), ("current_date", .int n)])) := by
  constructor
  · intro h1 h2
    simp [check_response, h1, h2, PyVal.isInt]
  · rfl

/-- Witness for C10: a homeworks list whose only element is a bare int
passes validation and is returned unchanged. -/
theorem check_response_shape_only_witness :
    check_response (.dict [("homeworks", .list [.int 7]), ("current_date", .int 9)]) =
      .ok [.int 7] := by
  exact (check_response_shape_only [("homeworks", .list [.int 7]), ("current_date", .int 9)]
      [.int 7] 9 (.int 7) [] [] 0).1 rfl rfl

end HomeworkBot
